import Mathlib

/-!
Verification of the web-agent orchestration engine against its
natural-language specification.

The Python sources are shallowly embedded: pure helpers become Lean
functions over `List Char` / `String`, the regular expressions used by the
sources are hand-compiled to equivalent decidable matchers (each matcher's
doc comment records the regex it implements), and the one state-transition
that lives outside the provided sources (the consecutive-failure reducer)
is modelled from the spec and marked as such.
-/

namespace WebAgent

/-! ## Python string primitives -/

/-- Python's whitespace predicate: CPython uses the same character set
for `str.strip()`, `str.isspace()` and the regex class `\s` on `str`
(`_PyUnicode_IsWhitespace`): U+0009-U+000D, U+001C-U+001F, space, NEL
U+0085, NBSP U+00A0, U+1680, U+2000-U+200A, U+2028, U+2029, U+202F,
U+205F and U+3000. -/
def pyIsSpace (c : Char) : Bool :=
  let n := c.toNat
  (0x9 ≤ n && n ≤ 0xd) || (0x1c ≤ n && n ≤ 0x1f) || n = 0x20
    || n = 0x85 || n = 0xa0 || n = 0x1680
    || (0x2000 ≤ n && n ≤ 0x200a)
    || n = 0x2028 || n = 0x2029 || n = 0x202f || n = 0x205f || n = 0x3000

/-- Python `str.strip()` on a line of characters (strips the full
Python whitespace set on both ends). -/
def pyStrip (l : List Char) : List Char :=
  ((l.dropWhile pyIsSpace).reverse.dropWhile pyIsSpace).reverse

/-- Python `str.lower()` (ASCII case folding, which is all the sources use). -/
def pyLower (l : List Char) : List Char :=
  l.map Char.toLower

/-- Python `text.split('\n')`: splits at every newline; the empty text
gives one empty line, matching `"".split('\n') == ['']`. -/
def splitLines : List Char → List (List Char)
  | [] => [[]]
  | c :: cs =>
    if c = '\n' then [] :: splitLines cs
    else
      match splitLines cs with
      | l :: ls => (c :: l) :: ls
      | [] => [[c]]

/-- Python `'\n'.join(lines)`. -/
def joinLines : List (List Char) → List Char
  | [] => []
  | [l] => l
  | l :: ls => l ++ '\n' :: joinLines ls

/-- Substring test: Python `needle in haystack` on strings. -/
def containsSub (needle : List Char) : List Char → Bool
  | [] => needle.isEmpty
  | c :: cs => needle.isPrefixOf (c :: cs) || containsSub needle cs

/-! ## StepTracker: embedding of `web_agent/utils/todo_parser.py` -/

/-- A parsed checklist step: `{"index": int, "text": str, "completed": bool}`. -/
structure TodoStep where
  index : Nat
  text : List Char
  completed : Bool
deriving DecidableEq, Repr

/-- Hand-compiled shared regex head `^-\s+\[`: a dash, one or more
whitespace characters, an opening bracket.  Returns the whitespace run and
the remainder after the bracket ('[' is not whitespace, so the greedy run
is exact). -/
def matchDashBracket (l : List Char) : Option (List Char × List Char) :=
  match l with
  | '-' :: r1 =>
    let ws := r1.takeWhile pyIsSpace
    if ws.isEmpty then none
    else
      match r1.drop ws.length with
      | '[' :: r2 => some (ws, r2)
      | _ => none
  | _ => none

/-- Hand-compiled shared regex part `\s*[xX]?\s*\]`: optional whitespace,
an optional `x`/`X`, optional whitespace, the closing bracket.  Returns
the remainder after `]`. -/
def matchBoxClose (r2 : List Char) : Option (List Char) :=
  let r3 := r2.drop (r2.takeWhile pyIsSpace).length
  let r4 :=
    match r3 with
    | c :: tl => if c = 'x' || c = 'X' then tl.drop (tl.takeWhile pyIsSpace).length else r3
    | [] => r3
  match r4 with
  | ']' :: r5 => some r5
  | _ => none

/-- Hand-compiled shared regex tail `\s+(.+)$`: one or more whitespace,
then the captured nonempty remainder (`.` does not cross a newline; `$`
also matches just before one trailing newline). -/
def matchSpacesThenBody (r : List Char) : Option (List Char) :=
  let ws := r.takeWhile pyIsSpace
  if ws.isEmpty then none
  else
    let rest := r.drop ws.length
    let body := if rest.getLast? = some '\n' then rest.dropLast else rest
    if body.isEmpty || body.contains '\n' || rest.length > body.length + 1 then none
    else some body

/-- Hand-compiled `re.match(r'^-\s+\[(x|X)\]\s+(.+)$', line)`: a dash, one
or more whitespace, `[x]` or `[X]` (nothing else between the brackets),
one or more whitespace, then the captured remainder (group 2). -/
def matchCompletedItem (l : List Char) : Option (List Char) :=
  match matchDashBracket l with
  | some (_, r2) =>
    match r2 with
    | c :: ']' :: r3 => if c = 'x' || c = 'X' then matchSpacesThenBody r3 else none
    | _ => none
  | none => none

/-- Hand-compiled `re.match(r'^-\s+\[\s*\]\s+(.+)$', line)`: a dash, one
or more whitespace, `[`, any whitespace, `]`, one or more whitespace, then
the captured remainder (group 1). -/
def matchPendingItem (l : List Char) : Option (List Char) :=
  match matchDashBracket l with
  | some (_, r2) =>
    match r2.drop (r2.takeWhile pyIsSpace).length with
    | ']' :: r3 => matchSpacesThenBody r3
    | _ => none
  | none => none

/-- Hand-compiled `re.match(r'^-\s+\[\s*[xX]?\s*\]\s+.+$', line_stripped)`:
recognises any checkbox item, completed or pending. -/
def isTaskItem (l : List Char) : Bool :=
  match matchDashBracket l with
  | some (_, r2) =>
    match matchBoxClose r2 with
    | some r5 => (matchSpacesThenBody r5).isSome
    | none => false
  | none => false

/-- Hand-compiled `re.sub(r'^(-\s+\[)\s*[xX]?(\])', r'\1x\2', line_stripped)`:
if the start of the line matches, the bracket content is replaced by `x`
(group 1 keeps its original whitespace); otherwise the line is returned
unchanged. -/
def subMarkComplete (l : List Char) : List Char :=
  match matchDashBracket l with
  | some (ws, r2) =>
    match matchBoxClose r2 with
    | some r5 => '-' :: (ws ++ ('[' :: 'x' :: ']' :: r5))
    | none => l
  | none => l

/-- Header test `line_stripped.startswith('## Tasks') or
line_stripped.startswith('## Steps')`. -/
def isTasksHeader (ls : List Char) : Bool :=
  ("## Tasks".toList).isPrefixOf ls || ("## Steps".toList).isPrefixOf ls

/-- Section-break test from `parse_todo_steps`:
`line_stripped.startswith('##') and 'tasks' not in lower and 'steps' not in lower`. -/
def isOtherSection (ls : List Char) : Bool :=
  ("##".toList).isPrefixOf ls
    && !(containsSub ("tasks".toList) (pyLower ls))
    && !(containsSub ("steps".toList) (pyLower ls))

/-- The line loop of `parse_todo_steps` (todo_parser.py lines 46-86):
carries `task_section_started` and the running step index, stops at a
foreign `##` section. -/
def parseTodoLines : List (List Char) → Bool → Nat → List TodoStep × List TodoStep
  | [], _, _ => ([], [])
  | line :: rest, started, idx =>
    let ls := pyStrip line
    if isTasksHeader ls then parseTodoLines rest true idx
    else if !started then parseTodoLines rest started idx
    else if isOtherSection ls then ([], [])
    else
      match matchCompletedItem ls with
      | some t =>
        let (cs, ps) := parseTodoLines rest started (idx + 1)
        (⟨idx, pyStrip t, true⟩ :: cs, ps)
      | none =>
        match matchPendingItem ls with
        | some t =>
          let (cs, ps) := parseTodoLines rest started (idx + 1)
          (cs, ⟨idx, pyStrip t, false⟩ :: ps)
        | none => parseTodoLines rest started idx

/-- `parse_todo_steps(todo_contents)` from todo_parser.py. -/
def parse_todo_steps (todo : List Char) : List TodoStep × List TodoStep :=
  if todo.isEmpty || (pyStrip todo).isEmpty then ([], [])
  else parseTodoLines (splitLines todo) false 0

/-- `get_current_step(todo_contents)`: first pending step or none. -/
def get_current_step (todo : List Char) : Option TodoStep :=
  (parse_todo_steps todo).2.head?

/-- The line loop of `mark_step_completed` (todo_parser.py lines 162-193):
carries `task_section_started` and `current_step_index`; checkbox lines
inside the task section are counted and the targeted one is rewritten
(from its stripped form, as the source does). -/
def markLines : List (List Char) → Bool → Nat → Nat → List (List Char)
  | [], _, _, _ => []
  | line :: rest, started, cur, target =>
    let ls := pyStrip line
    if isTasksHeader ls then line :: markLines rest true cur target
    else
      let started' := if ("##".toList).isPrefixOf ls && started then
          (if !(containsSub ("tasks".toList) (pyLower ls))
              && !(containsSub ("steps".toList) (pyLower ls)) then false else started)
        else started
      if !started' then line :: markLines rest started' cur target
      else if isTaskItem ls then
        if cur = target then subMarkComplete ls :: markLines rest started' (cur + 1) target
        else line :: markLines rest started' (cur + 1) target
      else line :: markLines rest started' cur target

/-- `mark_step_completed(todo_contents, step_index)` from todo_parser.py. -/
def mark_step_completed (todo : List Char) (stepIndex : Nat) : List Char :=
  joinLines (markLines (splitLines todo) false 0 stepIndex)

/-! ## Orchestrator router: embedding of `qa_agent/workflow.py` -/

/-- Python truthiness of an optional string (`state.get("error")`,
`state.get("think_output")`): present and nonempty. -/
def strTruthy : Option String → Bool
  | none => false
  | some s => !s.isEmpty

/-- The workflow-state fields read by `should_continue_after_think`. -/
structure RouterState where
  completed : Bool
  error : Option String
  consecutive_failures : Nat
  max_failures : Nat
  final_response_after_failure : Bool
  step_count : Nat
  max_steps : Nat
  think_output : Option String
deriving Repr

/-- The failure-exhaustion threshold
`max_failures + int(final_response_after_failure)`. -/
def failureThreshold (s : RouterState) : Nat :=
  s.max_failures + (if s.final_response_after_failure then 1 else 0)

/-- `should_continue_after_think(state)` from qa_agent/workflow.py lines
91-146: the guard chain after the THINK node, in source order
(completed, error, consecutive failures, step budget, strategic intent). -/
def should_continue_after_think (s : RouterState) : String :=
  if s.completed then "done"
  else if strTruthy s.error then "done"
  else if s.consecutive_failures ≥ failureThreshold s then "done"
  else if s.step_count ≥ s.max_steps then "done"
  else if strTruthy s.think_output then "continue"
  else "done"

/-! ## Consecutive-failure counting (C1)

The wrapper `act_wrapper_node` (web_agent/nodes/act_wrapper.py line 324)
computes whether the action outcome was fully successful; the reducer that
owns the `consecutive_failures` field itself (qa_agent's state module) is
not among the provided sources, so its transition is modelled from the
spec. -/

/-- `all_succeeded` from act_wrapper.py line 324: every action result
succeeded when there are results, otherwise at least one executed action. -/
def allSucceeded (actionResults : List Bool) (executedCount : Nat) : Bool :=
  if !actionResults.isEmpty then actionResults.all id else executedCount > 0

/-- Modelled from the spec: the `consecutive_failures` reducer of the
workflow state (qa_agent's state module, not under the provided sources)
— "a transition increments `consecutiveFailures` only when the action
outcome is unsuccessful; any fully successful outcome resets it to 0". -/
def updateConsecutiveFailures (cf : Nat) (success : Bool) : Nat :=
  if success then 0 else cf + 1

/-- Counter value after a sequence of action outcomes, starting from 0. -/
def cfAfter (outcomes : List Bool) : Nat :=
  outcomes.foldl updateConsecutiveFailures 0

/-! ## Action-repetition guard: embedding of `web_agent/nodes/think.py`
lines 1051-1080 -/

/-- The `(action_type, params.index)` projection of a planned action that
the repetition guard compares. -/
structure PlannedAction where
  action_type : String
  index : Option Int
deriving DecidableEq, Repr

/-- One evaluation of the repetition guard inside `think_node`: given the
previous THINK output's first action, the current one and the stored
`action_repetition_count`, returns the forced-termination error (if any)
together with the new counter value.  Mirrors think.py lines 1062-1080:
a match increments the counter and terminates at count `>= 3`; any
non-match (or missing action) resets the counter to 0. -/
def repetitionGuard (previous current : Option PlannedAction) (count : Nat) :
    Option String × Nat :=
  match previous, current with
  | some p, some c =>
    if p.action_type = c.action_type && p.index.isSome && p.index = c.index then
      let count' := count + 1
      if count' ≥ 3 then
        (some ("Action " ++ String.mk [Char.ofNat 39] ++ c.action_type
          ++ String.mk [Char.ofNat 39] ++ " on index "
          ++ (match c.index with | some i => toString i | none => "None")
          ++ " repeated " ++ toString count' ++ " times without success"), count')
      else (none, count')
    else (none, 0)
  | _, _ => (none, 0)

/-- Runs the repetition guard over consecutive THINK outputs (each the
first action of one THINK step), threading the previous action and the
stored counter exactly as the state does across steps; returns the
1-based step at which the loop force-terminates, if any. -/
def runRepetitionAux : Option PlannedAction → Nat → Nat → List PlannedAction → Option Nat
  | _, _, _, [] => none
  | prev, count, stepIdx, a :: rest =>
    match repetitionGuard prev (some a) count with
    | (some _, _) => some stepIdx
    | (none, count') => runRepetitionAux (some a) count' (stepIdx + 1) rest

/-- Termination step of the repetition guard over a fresh run of THINK
outputs (no previous action, counter 0). -/
def runRepetition (outputs : List PlannedAction) : Option Nat :=
  runRepetitionAux none 0 1 outputs

/-! ## DOM-stability delta: embedding of `web_agent/nodes/act.py`
lines 254-270, 286-291 and 330-339 -/

/-- The new-element delta computed by `act_node` after executing actions:
with a DOM-changing action and a nonempty previous identifier set the
adaptive detector's final set minus the previous set; if that is empty
(or no adaptive pass ran) and the previous set is nonempty, the freshly
fetched current set minus the previous set; otherwise empty. -/
def newElementIds (hasDomChangingAction : Bool)
    (previous finalAdaptive freshCurrent : Finset Nat) : Finset Nat :=
  let n1 := if hasDomChangingAction = true ∧ previous ≠ ∅ then finalAdaptive \ previous else ∅
  if n1 = ∅ ∧ previous ≠ ∅ then freshCurrent \ previous else n1

/-- `likely_pattern` inference from act.py lines 332-339, keyed on the
size of the new-element delta. -/
def likelyPattern (newCount : Nat) : String :=
  if newCount > 15 then "modal_or_form_opened"
  else if newCount > 5 then "dropdown_or_menu_opened"
  else if newCount > 0 then "suggestions_or_details_appeared"
  else "no_new_elements"

/-! ## A small regex evaluator

`qa_agent/utils/error_detector.py` matches fixed tables of regular
expressions with `re.search`.  The patterns only use literals,
alternation, optional groups and the bounded wildcard `.{0,n}`, so they
are represented by the following AST and evaluated by a
continuation-passing matcher.  Greediness does not affect whether
`re.search` succeeds, so the matcher explores all split points. -/

/-- Regex AST covering the constructs used by `ERROR_PATTERNS`. -/
inductive Rx where
  | lit : String → Rx
  | alt : Rx → Rx → Rx
  | seq : Rx → Rx → Rx
  | opt : Rx → Rx
  | anyB : Nat → Rx
deriving Repr

/-- Matches a regex against a prefix of `cs`, calling the continuation on
every possible remainder.  `anyB n` is `.{0,n}`: up to `n` characters,
none of them a newline. -/
def Rx.matchCont : Rx → List Char → (List Char → Bool) → Bool
  | .lit s, cs, k => s.toList.isPrefixOf cs && k (cs.drop s.length)
  | .alt a b, cs, k => a.matchCont cs k || b.matchCont cs k
  | .seq a b, cs, k => a.matchCont cs fun rest => b.matchCont rest k
  | .opt a, cs, k => k cs || a.matchCont cs k
  | .anyB n, cs, k =>
    (List.range (n + 1)).any fun i =>
      i ≤ cs.length && (cs.take i).all (· ≠ '\n') && k (cs.drop i)

/-- `re.search(pattern, text)`: a match starting at any position. -/
def Rx.search (r : Rx) (cs : List Char) : Bool :=
  (List.range (cs.length + 1)).any fun i => r.matchCont (cs.drop i) fun _ => true

/-- An apostrophe, kept out of string literals. -/
def apoS : String := String.mk [Char.ofNat 39]

/-! ## ErrorClassifier: embedding of `qa_agent/utils/error_detector.py` -/

/-- `ErrorDetector.ERROR_PATTERNS` (error_detector.py lines 38-83), in
dictionary order; each Python regex is transcribed into the `Rx` AST. -/
def ERROR_PATTERNS : List (String × List Rx) :=
  [("already_exists",
    [ -- r"already (?:registered|exists|in use|taken)"
      .seq (.lit "already ")
        (.alt (.lit "registered") (.alt (.lit "exists") (.alt (.lit "in use") (.lit "taken")))),
      -- r"(?:email|username|account) already"
      .seq (.alt (.lit "email") (.alt (.lit "username") (.lit "account"))) (.lit " already"),
      -- r"(?:this|the) .{0,20}? is already"
      .seq (.alt (.lit "this") (.lit "the")) (.seq (.lit " ") (.seq (.anyB 20) (.lit " is already"))),
      -- r"duplicate entry"
      .lit "duplicate entry",
      -- r"already (?:have an account|signed up)"
      .seq (.lit "already ") (.alt (.lit "have an account") (.lit "signed up"))]),
   ("permission_denied",
    [ -- r"(?:access|permission) denied"
      .seq (.alt (.lit "access") (.lit "permission")) (.lit " denied"),
      -- r"(?:you )?(?:do not have|don't have) (?:permission|access)"
      .seq (.opt (.lit "you "))
        (.seq (.alt (.lit "do not have") (.lit ("don" ++ apoS ++ "t have")))
          (.seq (.lit " ") (.alt (.lit "permission") (.lit "access")))),
      -- r"unauthorized"
      .lit "unauthorized",
      -- r"not (?:authorized|allowed)"
      .seq (.lit "not ") (.alt (.lit "authorized") (.lit "allowed")),
      -- r"forbidden"
      .lit "forbidden"]),
   ("not_found",
    [ -- r"not found"
      .lit "not found",
      -- r"(?:could not find|doesn't exist|no such)"
      .alt (.lit "could not find") (.alt (.lit ("doesn" ++ apoS ++ "t exist")) (.lit "no such")),
      -- r"404"
      .lit "404",
      -- r"page not found"
      .lit "page not found",
      -- r"resource not found"
      .lit "resource not found"]),
   ("invalid_input",
    [ -- r"invalid"
      .lit "invalid",
      -- r"(?:must be|should be|is) (?:valid|required|filled)"
      .seq (.alt (.lit "must be") (.alt (.lit "should be") (.lit "is")))
        (.seq (.lit " ") (.alt (.lit "valid") (.alt (.lit "required") (.lit "filled")))),
      -- r"(?:please|enter a) (?:valid|correct)"
      .seq (.alt (.lit "please") (.lit "enter a"))
        (.seq (.lit " ") (.alt (.lit "valid") (.lit "correct"))),
      -- r"(?:field is )?required"
      .seq (.opt (.lit "field is ")) (.lit "required"),
      -- r"(?:must|should) not be empty"
      .seq (.alt (.lit "must") (.lit "should")) (.lit " not be empty"),
      -- r"incorrect (?:format|length|pattern)"
      .seq (.lit "incorrect ") (.alt (.lit "format") (.alt (.lit "length") (.lit "pattern")))]),
   ("network_error",
    [ -- r"network error"
      .lit "network error",
      -- r"(?:failed to (?:load|connect|fetch)|connection lost)"
      .alt (.seq (.lit "failed to ") (.alt (.lit "load") (.alt (.lit "connect") (.lit "fetch"))))
        (.lit "connection lost"),
      -- r"(?:unable to|can't) connect"
      .seq (.alt (.lit "unable to") (.lit ("can" ++ apoS ++ "t"))) (.lit " connect"),
      -- r"timeout"
      .lit "timeout",
      -- r"offline"
      .lit "offline",
      -- r"check your (?:internet|connection)"
      .seq (.lit "check your ") (.alt (.lit "internet") (.lit "connection"))]),
   ("server_error",
    [ -- r"(?:server|internal|system) error"
      .seq (.alt (.lit "server") (.alt (.lit "internal") (.lit "system"))) (.lit " error"),
      -- r"500"
      .lit "500",
      -- r"something went wrong"
      .lit "something went wrong",
      -- r"try again (?:later|in a moment)"
      .seq (.lit "try again ") (.alt (.lit "later") (.lit "in a moment")),
      -- r"temporarily unavailable"
      .lit "temporarily unavailable"])]

/-- Python `any(kw in message_lower for kw in kws)`. -/
def anyKeyword (kws : List String) (lowered : List Char) : Bool :=
  kws.any fun kw => containsSub kw.toList lowered

/-- `ErrorDetector._classify_error_message(message)` (error_detector.py
lines 341-364): first pattern-table match in table order, then the coarse
keyword buckets, finally "generic". -/
def classify_error_message (message : String) : String :=
  let ml := pyLower message.toList
  match ERROR_PATTERNS.findSome? (fun (kind, pats) =>
      if pats.any (fun p => p.search ml) then some kind else none) with
  | some kind => kind
  | none =>
    if anyKeyword ["validation", "invalid", "required"] ml then "invalid_input"
    else if anyKeyword ["permission", "denied", "unauthorized"] ml then "permission_denied"
    else if anyKeyword ["not found", "not exist"] ml then "not_found"
    else if anyKeyword ["network", "connection", "timeout"] ml then "network_error"
    else if anyKeyword ["server", "error", "failed"] ml then "server_error"
    else "generic"

/-- `ErrorDetector._classify_severity(error_type)` (lines 257-268). -/
def classify_severity (errorType : String) : String :=
  if errorType = "permission_denied" then "high"
  else if errorType = "network_error" then "high"
  else if errorType = "server_error" then "high"
  else if errorType = "already_exists" then "medium"
  else if errorType = "not_found" then "medium"
  else if errorType = "invalid_input" then "medium"
  else "medium"

/-- `ErrorDetector._suggest_recovery(error_type)` (lines 270-281). -/
def suggest_recovery (errorType : String) : Option String :=
  if errorType = "already_exists" then some "Try using a different value or switch to login"
  else if errorType = "permission_denied" then
    some "Check your permissions or sign in with appropriate account"
  else if errorType = "not_found" then some "Navigate to the correct page or verify the URL"
  else if errorType = "invalid_input" then some "Correct the invalid input and try again"
  else if errorType = "network_error" then some "Check your internet connection and retry"
  else if errorType = "server_error" then some "Wait a moment and retry the action"
  else none

/-- The `ExtractedError` dataclass fields the claims are about. -/
structure ExtractedErrorM where
  error_type : String
  message : String
  severity : String
  recovery_hint : Option String
deriving DecidableEq, Repr

/-- Python `s[:200]`. -/
def take200 (s : String) : String :=
  String.mk (s.toList.take 200)

/-- One console error record turned into an `ExtractedError`
(error_detector.py lines 118-126). -/
def consoleErrorToExtracted (text : String) : ExtractedErrorM :=
  let k := classify_error_message text
  ⟨k, take200 text, classify_severity k, suggest_recovery k⟩

/-- The body of the validation-error loop of
`ErrorDetector.extract_errors_from_dom` (error_detector.py lines
129-138): one validation error is appended unless an already-collected
error carries an equal message. -/
def validationMergeStep (acc : List ExtractedErrorM) (t : String) : List ExtractedErrorM :=
  let e : ExtractedErrorM :=
    ⟨"invalid_input", take200 t, "medium", some "Correct the invalid input and try again"⟩
  if acc.any (fun x => x.message = e.message) then acc else acc ++ [e]

/-- The console phase of `ErrorDetector.extract_errors_from_dom`
(error_detector.py lines 107-141), over the text of the console errors
and console validation errors reported by the watchdog: every console
error is appended unconditionally; the first three validation errors are
appended only when no already-collected error has an equal message. -/
def extract_errors_console (consoleErrors consoleValidationErrors : List String) :
    List ExtractedErrorM :=
  (consoleValidationErrors.take 3).foldl validationMergeStep
    (consoleErrors.map consoleErrorToExtracted)

/-! ## PageContextAnalyzer: embedding of `qa_agent/utils/page_context.py` -/

/-- Splits a character list at every occurrence of `sep`
(Python `s.split(sep)` for a one-character separator). -/
def splitOnChar (sep : Char) : List Char → List (List Char)
  | [] => [[]]
  | c :: cs =>
    if c = sep then [] :: splitOnChar sep cs
    else
      match splitOnChar sep cs with
      | l :: ls => (c :: l) :: ls
      | [] => [[c]]

/-- The remainder after the first occurrence of `pat`, if any. -/
def afterSub (pat : List Char) : List Char → Option (List Char)
  | [] => if pat.isEmpty then some [] else none
  | c :: cs =>
    if pat.isPrefixOf (c :: cs) then some ((c :: cs).drop pat.length)
    else afterSub pat cs

/-- `urllib.parse.urlparse(url).path` for the URL shapes the analyzer
sees: with a `scheme://authority` prefix the path starts at the first
slash after the authority; without one the whole string is the path;
query and fragment are cut off. -/
def urlPath (url : String) : List Char :=
  let cs := url.toList
  let rest :=
    match afterSub ("://".toList) cs with
    | some r => r.dropWhile (· ≠ '/')
    | none => cs
  rest.takeWhile fun c => c ≠ '?' && c ≠ '#'

/-- `page_indicators` from `infer_current_page` (page_context.py lines
136-143), in dictionary order; the `_keywords` suffix of each key is
already stripped as the source does when recording a match. -/
def pageIndicators : List (String × List String) :=
  [("auth", ["login", "signin", "sign-in", "auth", "authenticate", "account/login"]),
   ("registration", ["signup", "sign-up", "register", "registration", "join"]),
   ("search", ["search", "query", "find"]),
   ("checkout", ["checkout", "cart", "payment", "order", "purchase"]),
   ("profile", ["profile", "account", "user", "settings", "preferences"]),
   ("dashboard", ["dashboard", "home", "main", "app", "admin"])]

/-- The URL-phase classification of `infer_current_page` (lines 125-154):
the first page type one of whose keywords occurs inside some nonempty
lower-cased path segment. -/
def urlMatchedPageType (url : String) : Option String :=
  let segs := (splitOnChar '/' (pyLower (urlPath url))).filter fun s => !s.isEmpty
  pageIndicators.findSome? fun pti =>
    if segs.any (fun seg => pti.2.any fun kw => containsSub kw.toList seg) then some pti.1
    else none

/-- The inputs of `PageContextAnalyzer` that `infer_current_page` and
`validate_against_todo_step` read: the page URL, the element-type counts,
the extracted visible-text signals and the element count. -/
structure PageInfo where
  url : String
  element_types : List (String × Nat)
  visible_text_elements : List String
  element_count : Nat
deriving Repr

/-- `element_types.get(key, 0)`. -/
def lookupCount (ets : List (String × Nat)) (k : String) : Nat :=
  match ets.find? (fun p => p.1 = k) with
  | some p => p.2
  | none => 0

/-- The signals `_extract_text_elements` (page_context.py lines 57-73)
emits for one element description string. -/
def elemSignals (elemStr : String) : List String :=
  let s := pyLower elemStr.toList
  (if containsSub "login".toList s || containsSub "sign in".toList s then ["login"] else [])
    ++ (if containsSub "submit".toList s || containsSub "next".toList s then ["submit"] else [])
    ++ (if containsSub "email".toList s || containsSub "username".toList s then ["email_field"] else [])
    ++ (if containsSub "password".toList s then ["password_field"] else [])
    ++ (if containsSub "search".toList s then ["search"] else [])

/-- `_extract_text_elements(selector_map)` over the string forms of the
elements; `list(set(texts))` has unspecified order in Python and only
membership is consumed downstream, so duplicates are removed here with
`List.dedup`. -/
def extractTextElements (descs : List String) : List String :=
  ((descs.map elemSignals).flatten).dedup

/-- `PageContextAnalyzer.infer_current_page()` (page_context.py lines
106-238): URL phase first (each matched type returns), then the DOM-only
fallback decision chain. -/
def infer_current_page (p : PageInfo) : String :=
  let visible := p.visible_text_elements
  let has_password_field := visible.contains "password"
  let has_email_field := visible.contains "email_field"
  let has_username_field := visible.contains "username"
  let has_address_field := visible.contains "address"
  let has_payment_field := visible.contains "payment"
  let has_search_field := visible.contains "search"
  let input_count := lookupCount p.element_types "input"
  let button_count := lookupCount p.element_types "button"
  let form_count := lookupCount p.element_types "form"
  let link_count := lookupCount p.element_types "a"
  match urlMatchedPageType p.url with
  | some "auth" =>
    if (has_email_field || has_username_field) && has_password_field && button_count > 0 then
      "login"
    else if input_count > 3 && button_count > 0 then "signup"
    else "auth_page"
  | some "registration" => "signup"
  | some "search" => "search"
  | some "checkout" =>
    if has_email_field || has_address_field || has_payment_field then "checkout"
    else "commerce_page"
  | some "profile" => "profile"
  | some "dashboard" => "dashboard"
  | _ =>
    if (has_email_field || has_username_field) && has_password_field then "login"
    else if input_count ≥ 3 && (has_email_field || has_password_field) then "signup"
    else if has_address_field || has_payment_field then "checkout"
    else if has_search_field && p.element_count > 10 then "search"
    else if form_count > 0 && input_count ≥ 2 then "form_page"
    else if link_count > 10 && p.element_count > 20 then "content_page"
    else if p.element_count ≥ 5 && link_count ≥ 3 && button_count ≥ 2 then "main_page"
    else if p.element_count < 5 then "simple_page"
    else "unknown"

/-- `action_keywords` from `validate_against_todo_step` (lines 265-274),
in dictionary order. -/
def actionKeywords : List (String × List String) :=
  [("login", ["login", "sign in", "signin", "authenticate"]),
   ("signup", ["signup", "sign up", "register", "create account", "join"]),
   ("email", ["email", "enter email", "type email", "fill email"]),
   ("password", ["password", "enter password", "type password"]),
   ("search", ["search", "find", "query"]),
   ("checkout", ["checkout", "purchase", "pay", "submit order"]),
   ("profile", ["profile", "account", "settings"]),
   ("navigate", ["go to", "navigate to", "visit"])]

/-- `action_to_page_patterns` (lines 282-291); `navigate` maps to `None`. -/
def actionToPagePatterns (action : String) : Option (List String) :=
  if action = "login" then some ["login", "auth_page"]
  else if action = "signup" then some ["signup", "auth_page", "registration"]
  else if action = "email" then some ["login", "signup", "checkout", "profile", "form_page"]
  else if action = "password" then some ["login", "signup", "auth_page"]
  else if action = "search" then some ["search", "main_page", "content_page"]
  else if action = "checkout" then some ["checkout", "commerce_page"]
  else if action = "profile" then some ["profile", "dashboard"]
  else none

/-- `element_availability` (lines 315-322) looked up per action name;
actions outside the table yield `none`. -/
def elementAvailability (keyElements : List String) (action : String) : Option Bool :=
  if action = "email" then some (keyElements.contains "email_field")
  else if action = "password" then some (keyElements.contains "password_field")
  else if action = "search" then some (keyElements.contains "search")
  else if action = "address" then some (keyElements.contains "address_field")
  else if action = "payment" then some (keyElements.contains "payment_field")
  else if action = "username" then some (keyElements.contains "username")
  else none

/-- `PageContextAnalyzer.validate_against_todo_step(current_step_text)`
(page_context.py lines 240-357).  Returns `(is_valid, reason)`; quotes in
the reason strings are built with `apoS` and the decorative status glyphs
of the source strings are kept. -/
def validate_against_todo_step (p : PageInfo) (stepText : String) : Bool × String :=
  let stepLower := pyLower stepText.toList
  let inferred := infer_current_page p
  let keyElements := p.visible_text_elements
  let step_actions := (actionKeywords.filter fun ak =>
    ak.2.any fun kw => containsSub kw.toList stepLower).map Prod.fst
  let expected_pages := ((step_actions.filterMap actionToPagePatterns).flatten).dedup
  if step_actions.contains "navigate" && step_actions.length = 1 then
    (true, "✅ Navigation action can be performed from any page")
  else if !expected_pages.isEmpty && expected_pages.contains inferred then
    (true, "✅ On correct page for " ++ apoS ++ String.intercalate ", " step_actions
      ++ apoS ++ ": " ++ inferred)
  else
    let required_elements_present := step_actions.filter fun a =>
      match elementAvailability keyElements a with
      | some b => b
      | none => false
    if !required_elements_present.isEmpty then
      (true, "✅ Found required elements: " ++ String.intercalate ", " required_elements_present)
    else if step_actions.contains "email" && lookupCount p.element_types "form" > 0 then
      (true, "✅ Form page detected, can enter email")
    else if step_actions.contains "checkout"
        && (lookupCount p.element_types "payment" > 0
          || lookupCount p.element_types "form" > 1) then
      (true, "✅ Commerce page detected, can checkout")
    else if step_actions.contains "search" && lookupCount p.element_types "input" > 0 then
      (true, "✅ Page has input elements for search")
    else
      (false, "⚠️  Page mismatch for action(s): "
        ++ String.intercalate ", " (if step_actions.isEmpty then ["unknown"] else step_actions)
        ++ "\n   Expected page types: "
        ++ (if expected_pages.isEmpty then "any" else String.intercalate ", " expected_pages)
        ++ "\n   Current page: " ++ inferred)

/-! ## Canonical checklists

The spec's checklist grammar (spec §6): header lines, a `## Tasks:` line,
then one `- [ ] text` / `- [x] text` line per step.  These definitions
render such a checklist so that universal properties of
`mark_step_completed` can be stated over all well-formed inputs. -/

/-- Renders one checklist item line `- [x] text` / `- [ ] text`. -/
def renderItem (it : Bool × List Char) : List Char :=
  '-' :: ' ' :: '[' :: (if it.1 then 'x' else ' ') :: ']' :: ' ' :: it.2

/-- A well-formed item text: nonempty, single-line, no surrounding
whitespace (so stripping and the checkbox regexes are exact on its line). -/
def validItemText (s : List Char) : Bool :=
  !s.isEmpty && !s.contains '\n'
    && (match s.head? with | some c => !pyIsSpace c | none => true)
    && (match s.getLast? with | some c => !pyIsSpace c | none => true)

/-- A well-formed header line: single-line and not itself a
`## Tasks`/`## Steps` header (title and `## Goal:` lines qualify). -/
def validHeaderLine (h : List Char) : Bool :=
  !h.contains '\n' && !isTasksHeader (pyStrip h)

/-- Renders a checklist: header lines, the `## Tasks:` line, one line per
item. -/
def renderTodo (hdr : List (List Char)) (items : List (Bool × List Char)) : List Char :=
  joinLines (hdr ++ ("## Tasks:".toList) :: items.map renderItem)

/-- Sets the completion flag of the item whose running index (starting at
`cur`) equals `target` — the checklist-level effect of
`mark_step_completed`. -/
def markItemsFrom : List (Bool × List Char) → Nat → Nat → List (Bool × List Char)
  | [], _, _ => []
  | it :: rest, cur, target =>
    (if cur = target then (true, it.2) else it) :: markItemsFrom rest (cur + 1) target

/-- Sets the completion flag of item `i` (0-based). -/
def markItems (items : List (Bool × List Char)) (i : Nat) : List (Bool × List Char) :=
  markItemsFrom items 0 i

/-! ## Concrete scenario inputs used by witnesses and counterexamples -/

/-- Scenario B page state: two inputs whose descriptions carry the email
and password signals, a URL without page-type keywords. -/
def loginScenarioInfo : PageInfo :=
  { url := "https://example.com/"
    element_types := []
    visible_text_elements := extractTextElements ["input type email", "input type password"]
    element_count := 2 }

/-- Scenario C router state at the failure boundary:
`consecutive_failures = max_failures = 3` with the final attempt enabled. -/
def boundaryState : RouterState :=
  { completed := false
    error := none
    consecutive_failures := 3
    max_failures := 3
    final_response_after_failure := true
    step_count := 5
    max_steps := 50
    think_output := some "Click the login button" }

/-- Scenario D repeated decision `(click, index=7)`. -/
def clickSeven : PlannedAction := ⟨"click", some 7⟩

/-! # Theorems -/

/-- The counter after a trace equals the length of its trailing run of
failures. -/
theorem cfAfter_eq_trailing (os : List Bool) :
    cfAfter os = (os.reverse.takeWhile (fun b => !b)).length := by
  induction os using List.reverseRecOn with
  | nil => rfl
  | append_singleton xs x ih =>
    have hfold : cfAfter (xs ++ [x]) = updateConsecutiveFailures (cfAfter xs) x := by
      simp [cfAfter, List.foldl_append]
    cases x <;> simp [hfold, updateConsecutiveFailures, ih]

/-- C1: across any sequence of workflow transitions the consecutive-failure
counter is incremented exactly on an unsuccessful action outcome and reset
to 0 exactly (and only) by a fully successful outcome; consequently it
always equals the length of the trailing run of failures. -/
theorem C1_failure_counter (os : List Bool) :
    cfAfter (os ++ [true]) = 0
      ∧ cfAfter (os ++ [false]) = cfAfter os + 1
      ∧ cfAfter os = (os.reverse.takeWhile (fun b => !b)).length := by
  refine ⟨?_, ?_, cfAfter_eq_trailing os⟩ <;>
    simp [cfAfter, List.foldl_append, updateConsecutiveFailures]

/-- C2: the post-Think router stops for failure exhaustion exactly at
`consecutive_failures ≥ max_failures + (1 if final_attempt else 0)`,
after the completed/error guards (which dominate it) and before the
step-budget and strategic-intent guards (which it dominates). -/
theorem C2_failure_exhaustion_guard (s : RouterState) :
    ((s.completed = true ∨ strTruthy s.error = true) →
        should_continue_after_think s = "done")
      ∧ (s.completed = false → strTruthy s.error = false →
          s.consecutive_failures ≥ failureThreshold s →
          should_continue_after_think s = "done")
      ∧ (s.completed = false → strTruthy s.error = false →
          s.consecutive_failures < failureThreshold s →
          s.step_count < s.max_steps → strTruthy s.think_output = true →
          should_continue_after_think s = "continue") := by
  unfold should_continue_after_think
  refine ⟨?_, ?_, ?_⟩
  · rintro (h | h) <;> simp [h]
  · intro h1 h2 h3
    simp [h1, h2, h3]
  · intro h1 h2 h3 h4 h5
    simp [h1, h2, h5, Nat.not_le.mpr h3, Nat.not_le.mpr h4]

/-- At the Scenario C boundary (`consecutive_failures = max_failures = 3`,
final attempt enabled) the router continues; one more failure stops it. -/
theorem C2_witness :
    should_continue_after_think boundaryState = "continue"
      ∧ should_continue_after_think { boundaryState with consecutive_failures := 4 } = "done" :=
  ⟨(C2_failure_exhaustion_guard boundaryState).2.2 rfl rfl (by decide) (by decide) (by decide),
   (C2_failure_exhaustion_guard { boundaryState with consecutive_failures := 4 }).2.1
     rfl rfl (by decide)⟩

/-- C3 counterexample: the same `(click, index=7)` decision produced three
times in a row does NOT terminate the loop — the guard only counts two
repetitions (counter 2 < 3) after three identical choices. -/
theorem C3_counterexample :
    runRepetition [clickSeven, clickSeven, clickSeven] = none := by decide

/-- C3 (amended): a Think output repeating the previous `(actionType,
elementIndex)` pair increments the repetition counter, the guard
force-terminates with the explicit repeated-action error exactly when the
counter reaches 3, and therefore a fresh run of identical choices
terminates on the 4th choice — three identical choices alone do not
terminate. -/
theorem C3_repetition_guard (a : PlannedAction) (count : Nat)
    (h : a.index.isSome = true) :
    (repetitionGuard (some a) (some a) count).2 = count + 1
      ∧ ((repetitionGuard (some a) (some a) count).1.isSome = decide (count + 1 ≥ 3))
      ∧ runRepetition [a, a, a] = none
      ∧ runRepetition [a, a, a, a] = some 4 := by
  have hguard : ∀ n : Nat, (repetitionGuard (some a) (some a) n).2 = n + 1
      ∧ ((repetitionGuard (some a) (some a) n).1.isSome = decide (n + 1 ≥ 3)) := by
    intro n
    unfold repetitionGuard
    simp only [h, Bool.and_true, Bool.true_and]
    by_cases h3 : n + 1 ≥ 3 <;> simp [h3]
  refine ⟨(hguard count).1, (hguard count).2, ?_, ?_⟩ <;>
    · unfold runRepetition runRepetitionAux
      simp only [repetitionGuard]
      simp [h, runRepetitionAux, repetitionGuard]

/-- Witness for C3: the amended guard behaviour at `(click, index=7)`. -/
theorem C3_witness :
    (repetitionGuard (some clickSeven) (some clickSeven) 2).2 = 3
      ∧ runRepetition [clickSeven, clickSeven, clickSeven, clickSeven] = some 4 :=
  ⟨(C3_repetition_guard clickSeven 2 (by decide)).1,
   (C3_repetition_guard clickSeven 2 (by decide)).2.2.2⟩

/-- C4 counterexample: on the header-less checklist
`"- [ ] step1\n- [ ] step2"` the task section never starts, so marking
step 0 returns the text unchanged (not `"- [x] step1\n- [ ] step2"`) and
`get_current_step` returns none (not the step2 record). -/
theorem C4_counterexample :
    mark_step_completed ("- [ ] step1\n- [ ] step2".toList) 0
        = ("- [ ] step1\n- [ ] step2".toList)
      ∧ mark_step_completed ("- [ ] step1\n- [ ] step2".toList) 0
          ≠ ("- [x] step1\n- [ ] step2".toList)
      ∧ get_current_step ("- [ ] step1\n- [ ] step2".toList) = none := by decide

/-- C4 (amended): with the checkbox lines under the required `## Tasks:`
header, marking step 0 yields exactly the text with step1 checked, and
`get_current_step` on the result returns the step2 record. -/
theorem C4_scenario_with_header :
    mark_step_completed ("## Tasks:\n- [ ] step1\n- [ ] step2".toList) 0
        = ("## Tasks:\n- [x] step1\n- [ ] step2".toList)
      ∧ get_current_step ("## Tasks:\n- [x] step1\n- [ ] step2".toList)
          = some ⟨1, "step2".toList, false⟩ := by decide

/-- C6: "Email already registered" classifies as `already_exists` with
severity medium and a non-null recovery hint, and every named kind maps to
its fixed severity (`permission_denied`/`network_error`/`server_error`
high, the others medium) and fixed recovery-hint string. -/
theorem C6_error_classification :
    classify_error_message "Email already registered" = "already_exists"
      ∧ classify_severity "already_exists" = "medium"
      ∧ suggest_recovery "already_exists" = some "Try using a different value or switch to login"
      ∧ classify_severity "permission_denied" = "high"
      ∧ classify_severity "network_error" = "high"
      ∧ classify_severity "server_error" = "high"
      ∧ classify_severity "not_found" = "medium"
      ∧ classify_severity "invalid_input" = "medium"
      ∧ suggest_recovery "permission_denied"
          = some "Check your permissions or sign in with appropriate account"
      ∧ suggest_recovery "not_found" = some "Navigate to the correct page or verify the URL"
      ∧ suggest_recovery "invalid_input" = some "Correct the invalid input and try again"
      ∧ suggest_recovery "network_error" = some "Check your internet connection and retry"
      ∧ suggest_recovery "server_error" = some "Wait a moment and retry the action" := by
  decide

/-- C7 counterexample: two identical console errors in one detection pass
both survive — the returned list is not deduplicated by message
equality. -/
theorem C7_counterexample :
    ¬ List.Pairwise (fun a b : ExtractedErrorM => a.message ≠ b.message)
      (extract_errors_console ["network error", "network error"] []) := by decide

/-- C7 (amended): within one detection pass, deduplication by exact
message equality is applied only when merging console validation errors:
each validation-sourced entry is appended only if no earlier entry of the
pass carries an equal message (so the appended tail is pairwise distinct
and distinct from every console-sourced message), while console errors
themselves are returned without deduplication. -/
theorem C7_validation_dedup (consoleErrors consoleValidationErrors : List String) :
    ∃ extra,
      extract_errors_console consoleErrors consoleValidationErrors
          = consoleErrors.map consoleErrorToExtracted ++ extra
        ∧ extra.Pairwise (fun a b => a.message ≠ b.message)
        ∧ ∀ e ∈ extra, e.error_type = "invalid_input"
            ∧ ∀ b ∈ consoleErrors.map consoleErrorToExtracted, b.message ≠ e.message := by
  have main : ∀ (ts : List String) (acc : List ExtractedErrorM),
      ∃ extra,
        ts.foldl validationMergeStep acc = acc ++ extra
          ∧ extra.Pairwise (fun a b => a.message ≠ b.message)
          ∧ ∀ e ∈ extra, e.error_type = "invalid_input"
              ∧ ∀ b ∈ acc, b.message ≠ e.message := by
    intro ts
    induction ts with
    | nil => exact fun acc => ⟨[], by simp, by simp, by simp⟩
    | cons t ts ih =>
      intro acc
      rw [List.foldl_cons]
      by_cases hdup : (acc.any fun x => x.message = take200 t) = true
      · have hstep : validationMergeStep acc t = acc := by
          simp [validationMergeStep, hdup]
        rw [hstep]
        exact ih acc
      · have hstep : validationMergeStep acc t
            = acc ++ [⟨"invalid_input", take200 t, "medium",
                some "Correct the invalid input and try again"⟩] := by
          simp only [validationMergeStep]
          rw [if_neg]
          simpa using hdup
        rw [hstep]
        obtain ⟨extra, h1, h2, h3⟩ := ih (acc ++
          [⟨"invalid_input", take200 t, "medium",
            some "Correct the invalid input and try again"⟩])
        refine ⟨⟨"invalid_input", take200 t, "medium",
            some "Correct the invalid input and try again"⟩ :: extra, ?_, ?_, ?_⟩
        · simpa [List.append_assoc] using h1
        · refine List.pairwise_cons.mpr ⟨?_, h2⟩
          intro e he
          exact (h3 e he).2 _ (by simp)
        · intro e he
          rcases List.mem_cons.mp he with rfl | he'
          · refine ⟨rfl, ?_⟩
            intro b hb hmsg
            exact hdup (List.any_eq_true.mpr ⟨b, hb, by simpa using hmsg⟩)
          · exact ⟨(h3 e he').1, fun b hb => (h3 e he').2 b (by simp [hb])⟩
  obtain ⟨extra, h1, h2, h3⟩ :=
    main (consoleValidationErrors.take 3) (consoleErrors.map consoleErrorToExtracted)
  exact ⟨extra, h1, h2, h3⟩

/-- Witness for C7 (amended) at a concrete pass: one console error and a
validation error duplicating its message plus a fresh one. -/
theorem C7_witness :
    ∃ extra,
      extract_errors_console ["network error"] ["network error", "bad input"]
          = ["network error"].map consoleErrorToExtracted ++ extra
        ∧ extra.Pairwise (fun a b : ExtractedErrorM => a.message ≠ b.message)
        ∧ ∀ e ∈ extra, e.error_type = "invalid_input"
            ∧ ∀ b ∈ ["network error"].map consoleErrorToExtracted, b.message ≠ e.message :=
  C7_validation_dedup ["network error"] ["network error", "bad input"]

/-- C8 counterexample: after a DOM-mutating action with an empty previous
identifier set, the computed delta is empty even though the current set
minus the previous set is not — the delta does not equal current minus
previous there. -/
theorem C8_counterexample :
    newElementIds true ∅ {1} {1} = ∅
      ∧ ({1} : Finset Nat) \ ∅ = {1}
      ∧ (∅ : Finset Nat) ≠ ({1} : Finset Nat) := by decide

/-- C8 (amended): after a DOM-mutating action with a NONEMPTY previous
identifier set, the delta equals the current identifier set minus the
previous one (the stabilized set when its difference is nonempty,
otherwise the freshly fetched set), and the inferred pattern follows the
15/5/0 thresholds exactly; with an empty previous set the delta is always
empty. -/
theorem C8_delta_and_pattern (prev finalAdaptive fresh : Finset Nat)
    (hprev : prev ≠ ∅) :
    (finalAdaptive \ prev ≠ ∅ →
        newElementIds true prev finalAdaptive fresh = finalAdaptive \ prev)
      ∧ (finalAdaptive \ prev = ∅ →
          newElementIds true prev finalAdaptive fresh = fresh \ prev)
      ∧ (∀ current : Finset Nat,
          newElementIds true prev current current = current \ prev)
      ∧ (∀ n : Nat,
          (15 < n → likelyPattern n = "modal_or_form_opened")
            ∧ (5 < n → n ≤ 15 → likelyPattern n = "dropdown_or_menu_opened")
            ∧ (0 < n → n ≤ 5 → likelyPattern n = "suggestions_or_details_appeared")
            ∧ (n = 0 → likelyPattern n = "no_new_elements")) := by
  refine ⟨?_, ?_, ?_, ?_⟩
  · intro hne
    simp [newElementIds, hprev, hne]
  · intro he
    simp [newElementIds, hprev, he]
  · intro current
    by_cases hd : current \ prev = ∅ <;> simp [newElementIds, hprev, hd]
  · intro n
    refine ⟨fun h => ?_, fun h1 h2 => ?_, fun h1 h2 => ?_, fun h => ?_⟩
    · simp [likelyPattern, h]
    · have h15 : ¬ n > 15 := by omega
      simp [likelyPattern, h1, h15]
    · have h15 : ¬ n > 15 := by omega
      have h5 : ¬ n > 5 := by omega
      simp [likelyPattern, h1, h15, h5]
    · simp [likelyPattern, h]
/-- Witness for C8 (amended) at `prev = {0}`, `current = {0, 1, 2}`. -/
theorem C8_witness :
    newElementIds true {0} {0, 1, 2} {0, 1, 2} = ({0, 1, 2} : Finset Nat) \ {0}
      ∧ likelyPattern 2 = "suggestions_or_details_appeared" :=
  ⟨(C8_delta_and_pattern {0} {0, 1, 2} {0, 1, 2} (by decide)).2.2.1 {0, 1, 2},
   ((C8_delta_and_pattern {0} {0, 1, 2} {0, 1, 2} (by decide)).2.2.2 2).2.2.1
     (by decide) (by decide)⟩

/-- C9: evaluating the embedded analyzer on the Scenario B state — key
signals `email_field` and `password_field`, URL without page-type
keywords, step text "login with credentials" — yields `(false, ...)`,
not `(true, ...)`: `infer_current_page` tests `"password" in
visible_elements` although the extractor only ever emits
`"password_field"`, so neither the login page inference nor the element
fallback (which does not cover the `login` action) can accept. -/
theorem C9_scenario_evaluation :
    extractTextElements ["input type email", "input type password"]
        = ["email_field", "password_field"]
      ∧ urlMatchedPageType "https://example.com/" = none
      ∧ infer_current_page loginScenarioInfo = "simple_page"
      ∧ (validate_against_todo_step loginScenarioInfo "login with credentials").1 = false := by
  decide

/-- Every signal emitted for one element description is one of the five
fixed tags. -/
theorem elemSignals_subset (s x : String) (hx : x ∈ elemSignals s) :
    x ∈ ["login", "submit", "email_field", "password_field", "search"] := by
  unfold elemSignals at hx
  simp only [List.mem_append] at hx
  rcases hx with (((h | h) | h) | h) | h <;>
    · split at h <;> simp_all

/-- The extractor only ever emits signals from the five fixed tags
(`_extract_text_elements`, page_context.py lines 57-73). -/
theorem extractTextElements_subset (descs : List String) :
    ∀ x ∈ extractTextElements descs,
      x ∈ ["login", "submit", "email_field", "password_field", "search"] := by
  intro x hx
  rw [extractTextElements, List.mem_dedup, List.mem_flatten] at hx
  obtain ⟨l, hl, hxl⟩ := hx
  obtain ⟨s, _, rfl⟩ := List.mem_map.mp hl
  exact elemSignals_subset s x hxl

/-- C10: with element signals produced by the extractor, the DOM-only
fallback of `infer_current_page` can never return "checkout" — the
address-field and payment-field predicates test tags the extractor never
emits — so "checkout" can only come from the URL-keyword phase. -/
theorem C10_no_checkout_from_dom (descs : List String) (url : String)
    (ets : List (String × Nat)) (cnt : Nat)
    (hurl : urlMatchedPageType url = none) :
    infer_current_page ⟨url, ets, extractTextElements descs, cnt⟩ ≠ "checkout" := by
  have hsub := extractTextElements_subset descs
  have haddr : (extractTextElements descs).contains "address" = false := by
    have h : "address" ∉ extractTextElements descs := by
      intro h
      simpa using hsub "address" h
    simpa using h
  have hpay : (extractTextElements descs).contains "payment" = false := by
    have h : "payment" ∉ extractTextElements descs := by
      intro h
      simpa using hsub "payment" h
    simpa using h
  unfold infer_current_page
  simp only [hurl, haddr, hpay, Bool.or_false, Bool.false_or]
  split_ifs
  all_goals first
    | decide
    | exact False.elim (by assumption)

/-- Witness for C10: a concrete keyword-free URL and element pool. -/
theorem C10_witness :
    infer_current_page
        ⟨"https://example.com/", [], extractTextElements ["input email"], 0⟩
      ≠ "checkout" :=
  C10_no_checkout_from_dom ["input email"] "https://example.com/" [] 0 (by decide)

/-! ### Checklist-rendering lemmas for C5 -/

/-- `takeWhile` is empty when the head fails the predicate. -/
theorem takeWhile_nil_of_head (p : Char → Bool) (l : List Char)
    (h : ∀ c, l.head? = some c → p c = false) : l.takeWhile p = [] := by
  cases l with
  | nil => rfl
  | cons a t => simp [List.takeWhile_cons, h a rfl]

/-- `dropWhile` is the identity when the head fails the predicate. -/
theorem dropWhile_self_of_head (p : Char → Bool) (l : List Char)
    (h : ∀ c, l.head? = some c → p c = false) : l.dropWhile p = l := by
  cases l with
  | nil => rfl
  | cons a t => simp [List.dropWhile_cons, h a rfl]

/-- Stripping is the identity on a line with non-whitespace endpoints. -/
theorem pyStrip_eq_self (l : List Char)
    (hh : ∀ c, l.head? = some c → pyIsSpace c = false)
    (hl : ∀ c, l.getLast? = some c → pyIsSpace c = false) :
    pyStrip l = l := by
  unfold pyStrip
  rw [dropWhile_self_of_head _ _ hh, dropWhile_self_of_head, List.reverse_reverse]
  intro c hc
  rw [List.head?_reverse] at hc
  exact hl c hc

/-- Unpacks the Boolean validity of an item text. -/
theorem validItemText_spec (s : List Char) (h : validItemText s = true) :
    s ≠ [] ∧ s.contains '\n' = false
      ∧ (∀ c, s.head? = some c → pyIsSpace c = false)
      ∧ (∀ c, s.getLast? = some c → pyIsSpace c = false) := by
  unfold validItemText at h
  simp only [Bool.and_eq_true] at h
  obtain ⟨⟨⟨h1, h2⟩, h3⟩, h4⟩ := h
  refine ⟨by simpa using h1, by simpa using h2, ?_, ?_⟩
  · intro c hc
    rw [hc] at h3
    simpa using h3
  · intro c hc
    rw [hc] at h4
    simpa using h4

/-- The rendered item as an append of its fixed prefix and the text. -/
theorem renderItem_eq_append (c : Bool) (s : List Char) :
    renderItem (c, s) = ['-', ' ', '[', if c then 'x' else ' ', ']', ' '] ++ s := rfl

/-- A rendered item line contains no newline. -/
theorem renderItem_no_newline (c : Bool) (s : List Char)
    (hs : s.contains '\n' = false) :
    (renderItem (c, s)).contains '\n' = false := by
  rw [renderItem_eq_append]
  cases c <;> simpa using hs

/-- Stripping is the identity on a rendered item line. -/
theorem pyStrip_renderItem (c : Bool) (s : List Char) (h : validItemText s = true) :
    pyStrip (renderItem (c, s)) = renderItem (c, s) := by
  obtain ⟨hne, _, _, hlast⟩ := validItemText_spec s h
  apply pyStrip_eq_self
  · intro d hd
    rw [renderItem_eq_append] at hd
    simp at hd
    subst hd
    decide
  · intro d hd
    rw [renderItem_eq_append, List.getLast?_append_of_ne_nil _ hne] at hd
    exact hlast d hd

/-- A rendered item line is not a `## Tasks`/`## Steps` header. -/
theorem renderItem_not_tasksHeader (c : Bool) (s : List Char) :
    isTasksHeader (renderItem (c, s)) = false := by
  rw [renderItem_eq_append]
  simp [isTasksHeader, List.isPrefixOf]

/-- A rendered item line does not start with `##`. -/
theorem renderItem_not_section (c : Bool) (s : List Char) :
    ("##".toList).isPrefixOf (renderItem (c, s)) = false := by
  rw [renderItem_eq_append]
  simp [List.isPrefixOf]

/-- `pyIsSpace` on a space. -/
theorem pyIsSpace_space : pyIsSpace ' ' = true := rfl

/-- The regex head on a rendered item: one space of whitespace, then the
box content. -/
theorem matchDashBracket_renderItem (c : Bool) (s : List Char) :
    matchDashBracket (renderItem (c, s))
      = some ([' '], (if c then 'x' else ' ') :: ']' :: ' ' :: s) := by
  cases c <;> rfl

/-- The box-close matcher on a rendered item box content. -/
theorem matchBoxClose_renderBox (c : Bool) (s : List Char) :
    matchBoxClose ((if c then 'x' else ' ') :: ']' :: ' ' :: s) = some (' ' :: s) := by
  cases c <;> rfl

/-- The regex tail on one space followed by a valid item text captures
exactly the text. -/
theorem matchSpacesThenBody_space (s : List Char) (h : validItemText s = true) :
    matchSpacesThenBody (' ' :: s) = some s := by
  obtain ⟨hne, hnl, hhead, _⟩ := validItemText_spec s h
  have htw : s.takeWhile pyIsSpace = [] := takeWhile_nil_of_head _ _ hhead
  have hmem : '\n' ∉ s := by simpa using hnl
  have hgl : ¬ s.getLast? = some '\n' := by
    intro hl
    obtain ⟨hne2, heq⟩ :=
      List.mem_getLast?_eq_getLast (l := s) (x := '\n') (by rw [hl]; rfl)
    exact hmem (heq ▸ List.getLast_mem hne2)
  have h1 : (' ' :: s).takeWhile pyIsSpace = [' '] := by
    rw [List.takeWhile_cons]
    simp [pyIsSpace_space, htw]
  unfold matchSpacesThenBody
  rw [h1]
  simp only [List.isEmpty_cons, List.length_cons, List.length_nil, List.drop_succ_cons,
    List.drop_zero, Bool.false_eq_true, if_false, if_neg hgl]
  have hse : s.isEmpty = false := by simpa [List.isEmpty_iff] using hne
  simp [hse, hnl, hmem]

/-- A rendered item line satisfies the task-item regex. -/
theorem isTaskItem_renderItem (c : Bool) (s : List Char) (h : validItemText s = true) :
    isTaskItem (renderItem (c, s)) = true := by
  simp only [isTaskItem, matchDashBracket_renderItem, matchBoxClose_renderBox,
    matchSpacesThenBody_space s h, Option.isSome_some]

/-- Marking rewrites a rendered item to its completed form. -/
theorem subMark_renderItem (c : Bool) (s : List Char) :
    subMarkComplete (renderItem (c, s)) = renderItem (true, s) := by
  simp only [subMarkComplete, matchDashBracket_renderItem, matchBoxClose_renderBox]
  rfl

/-- A single-line text splits to itself. -/
theorem splitLines_single (l : List Char) (h : '\n' ∉ l) : splitLines l = [l] := by
  induction l with
  | nil => rfl
  | cons c cs ih =>
    have hc : ¬ c = '\n' := fun hcc => h (hcc ▸ List.mem_cons_self c cs)
    have hcs : '\n' ∉ cs := fun hm => h (List.mem_cons_of_mem c hm)
    simp only [splitLines, if_neg hc, ih hcs]

/-- Splitting after a single-line prefix peels it off. -/
theorem splitLines_append (l t : List Char) (h : '\n' ∉ l) :
    splitLines (l ++ '\n' :: t) = l :: splitLines t := by
  induction l with
  | nil => simp [splitLines]
  | cons c cs ih =>
    have hc : ¬ c = '\n' := fun hcc => h (hcc ▸ List.mem_cons_self c cs)
    have hcs : '\n' ∉ cs := fun hm => h (List.mem_cons_of_mem c hm)
    simp only [List.cons_append, splitLines, if_neg hc]
    rw [show cs.append ('\n' :: t) = cs ++ '\n' :: t from rfl, ih hcs]

/-- Splitting inverts joining for newline-free lines. -/
theorem splitLines_joinLines (ls : List (List Char)) (hne : ls ≠ [])
    (h : ∀ l ∈ ls, '\n' ∉ l) : splitLines (joinLines ls) = ls := by
  induction ls with
  | nil => exact absurd rfl hne
  | cons l rest ih =>
    cases rest with
    | nil => exact splitLines_single l (h l (by simp))
    | cons l2 rest2 =>
      rw [show joinLines (l :: l2 :: rest2) = l ++ '\n' :: joinLines (l2 :: rest2) from rfl,
        splitLines_append l _ (h l (by simp)),
        ih (by simp) (fun x hx => h x (by simp [hx]))]

/-- Header lines are passed through unchanged by `mark_step_completed`'s
line loop while the task section has not started. -/
theorem markLines_header_prefix (hdr rest : List (List Char)) (cur target : Nat)
    (hh : ∀ h ∈ hdr, validHeaderLine h = true) :
    markLines (hdr ++ rest) false cur target = hdr ++ markLines rest false cur target := by
  induction hdr with
  | nil => rfl
  | cons h hs ih =>
    have hv := hh h (by simp)
    have hth : isTasksHeader (pyStrip h) = false := by
      unfold validHeaderLine at hv
      simp only [Bool.and_eq_true] at hv
      simpa using hv.2
    rw [List.cons_append]
    simp only [markLines, hth, Bool.and_false, Bool.false_eq_true, if_false,
      Bool.not_false, if_true]
    rw [ih (fun x hx => hh x (by simp [hx]))]
    rfl

/-- The `## Tasks:` line starts the task section. -/
theorem markLines_tasks (itemLines : List (List Char)) (cur target : Nat) :
    markLines (("## Tasks:".toList) :: itemLines) false cur target
      = ("## Tasks:".toList) :: markLines itemLines true cur target := by
  have htt : isTasksHeader (pyStrip ("## Tasks:".toList)) = true := by decide
  simp only [markLines, htt, if_true]

/-- Inside the task section, the line loop maps rendered items to rendered
marked items. -/
theorem markLines_items (items : List (Bool × List Char)) (cur target : Nat)
    (hi : ∀ it ∈ items, validItemText it.2 = true) :
    markLines (items.map renderItem) true cur target
      = (markItemsFrom items cur target).map renderItem := by
  induction items generalizing cur with
  | nil => rfl
  | cons it rest ih =>
    obtain ⟨c, s⟩ := it
    have hv := hi (c, s) (by simp)
    have hrest : ∀ x ∈ rest, validItemText x.2 = true := fun x hx => hi x (by simp [hx])
    simp only [List.map_cons, markLines, pyStrip_renderItem c s hv,
      renderItem_not_tasksHeader, renderItem_not_section, Bool.false_eq_true, if_false,
      Bool.false_and, Bool.not_true, isTaskItem_renderItem c s hv, if_true]
    by_cases hct : cur = target
    · subst hct
      simp [subMark_renderItem, markItemsFrom, ih (cur + 1) hrest]
    · simp [hct, markItemsFrom, ih (cur + 1) hrest]

/-- Element lookup through `markItemsFrom`: the targeted position has its
flag set, all others are untouched. -/
theorem markItemsFrom_getElem? (items : List (Bool × List Char)) (cur target j : Nat) :
    (markItemsFrom items cur target)[j]?
      = if cur + j = target then (items[j]?).map (fun it => (true, it.2))
        else items[j]? := by
  induction items generalizing cur j with
  | nil => simp [markItemsFrom]
  | cons it rest ih =>
    cases j with
    | zero =>
      by_cases h : cur = target <;> simp [markItemsFrom, h]
    | succ j =>
      have harith : cur + (j + 1) = (cur + 1) + j := by omega
      simp only [markItemsFrom, List.getElem?_cons_succ, ih (cur + 1) j, harith]

/-- `markItemsFrom` is idempotent. -/
theorem markItemsFrom_idem (items : List (Bool × List Char)) (cur target : Nat) :
    markItemsFrom (markItemsFrom items cur target) cur target
      = markItemsFrom items cur target := by
  induction items generalizing cur with
  | nil => rfl
  | cons it rest ih =>
    by_cases h : cur = target <;> simp [markItemsFrom, h, ih]

/-- Marking an already-completed index leaves the item list unchanged. -/
theorem markItems_noop (items : List (Bool × List Char)) (i : Nat) (s : List Char)
    (h : items[i]? = some (true, s)) : markItems items i = items := by
  apply List.ext_getElem?
  intro j
  rw [markItems, markItemsFrom_getElem?]
  by_cases hj : 0 + j = i
  · have hji : j = i := by omega
    subst hji
    rw [if_pos hj, h]
    rfl
  · rw [if_neg hj]

/-- Marking index `i` is exactly `List.set` of the flag at `i`. -/
theorem markItems_set (items : List (Bool × List Char)) (i : Nat) (c : Bool) (s : List Char)
    (h : items[i]? = some (c, s)) : markItems items i = items.set i (true, s) := by
  have hlen : i < items.length := by
    by_contra hlt
    rw [List.getElem?_eq_none (by omega)] at h
    cases h
  apply List.ext_getElem?
  intro j
  rw [markItems, markItemsFrom_getElem?]
  by_cases hj : 0 + j = i
  · have hji : j = i := by omega
    subst hji
    rw [if_pos hj, h, List.getElem?_set_self hlen]
    rfl
  · have hji : i ≠ j := by omega
    rw [if_neg hj, List.getElem?_set_ne hji]

/-- `markItemsFrom` preserves item-text validity (texts are untouched). -/
theorem markItemsFrom_valid : ∀ (items : List (Bool × List Char)) (cur target : Nat),
    (∀ it ∈ items, validItemText it.2 = true) →
    ∀ it ∈ markItemsFrom items cur target, validItemText it.2 = true := by
  intro items
  induction items with
  | nil =>
    intro cur target _ it hit
    simp [markItemsFrom] at hit
  | cons a rest ih =>
    intro cur target hi it hit
    simp only [markItemsFrom, List.mem_cons] at hit
    rcases hit with heq | hit
    · have h2 : it.2 = a.2 := by
        by_cases h : cur = target <;> simp [heq, h]
      rw [h2]
      exact hi a (by simp)
    · exact ih (cur + 1) target (fun x hx => hi x (by simp [hx])) it hit

/-- `mark_step_completed` on a rendered checklist renders the marked item
list: its entire effect is setting one completion flag. -/
theorem mark_render (hdr : List (List Char)) (items : List (Bool × List Char)) (i : Nat)
    (hh : ∀ h ∈ hdr, validHeaderLine h = true)
    (hi : ∀ it ∈ items, validItemText it.2 = true) :
    mark_step_completed (renderTodo hdr items) i = renderTodo hdr (markItems items i) := by
  unfold mark_step_completed renderTodo markItems
  have hsplit : splitLines (joinLines (hdr ++ ("## Tasks:".toList) :: items.map renderItem))
      = hdr ++ ("## Tasks:".toList) :: items.map renderItem := by
    apply splitLines_joinLines
    · simp
    · intro l hl
      rcases List.mem_append.mp hl with hl | hl
      · have hv := hh l hl
        unfold validHeaderLine at hv
        simp only [Bool.and_eq_true] at hv
        simpa using hv.1
      · rcases List.mem_cons.mp hl with rfl | hl
        · decide
        · obtain ⟨it, hit, rfl⟩ := List.mem_map.mp hl
          have hv := validItemText_spec it.2 (hi it hit)
          simpa using renderItem_no_newline it.1 it.2 hv.2.1
  rw [hsplit, markLines_header_prefix _ _ _ _ hh, markLines_tasks,
    markLines_items _ _ _ hi]

/-- C5: on every canonically rendered checklist, `mark_step_completed`
acts as setting exactly one completion flag: re-marking an already
complete index returns the input text unchanged, marking twice equals
marking once, marking a valid index rewrites the text to the one with
that single flag set, and no other item is affected. -/
theorem C5_mark_complete_idempotent (hdr : List (List Char))
    (items : List (Bool × List Char)) (i : Nat)
    (hh : ∀ h ∈ hdr, validHeaderLine h = true)
    (hi : ∀ it ∈ items, validItemText it.2 = true) :
    (∀ s, items[i]? = some (true, s) →
        mark_step_completed (renderTodo hdr items) i = renderTodo hdr items)
      ∧ mark_step_completed (mark_step_completed (renderTodo hdr items) i) i
          = mark_step_completed (renderTodo hdr items) i
      ∧ (∀ c s, items[i]? = some (c, s) →
          mark_step_completed (renderTodo hdr items) i
            = renderTodo hdr (items.set i (true, s)))
      ∧ (∀ j, j ≠ i → (markItems items i)[j]? = items[j]?)
      ∧ (∀ c s, items[i]? = some (c, s) → (markItems items i)[i]? = some (true, s)) := by
  have hmain := mark_render hdr items i hh hi
  refine ⟨?_, ?_, ?_, ?_, ?_⟩
  · intro s hs
    rw [hmain, markItems_noop items i s hs]
  · rw [hmain, mark_render hdr (markItems items i) i hh (markItemsFrom_valid items 0 i hi)]
    rw [show markItems (markItems items i) i = markItems items i from
      markItemsFrom_idem items 0 i]
  · intro c s hs
    rw [hmain, markItems_set items i c s hs]
  · intro j hj
    rw [markItems, markItemsFrom_getElem?, if_neg (by omega)]
  · intro c s hs
    rw [markItems, markItemsFrom_getElem?, if_pos (by omega), hs]
    rfl

/-- Witness for C5 on the checklist `## Tasks: / - [x] a / - [ ] b`:
re-marking complete index 0 is a no-op, and marking pending index 1 sets
exactly its flag. -/
theorem C5_witness :
    mark_step_completed (renderTodo [] [(true, "a".toList), (false, "b".toList)]) 0
        = renderTodo [] [(true, "a".toList), (false, "b".toList)]
      ∧ mark_step_completed (renderTodo [] [(true, "a".toList), (false, "b".toList)]) 1
          = renderTodo [] [(true, "a".toList), (true, "b".toList)] :=
  ⟨(C5_mark_complete_idempotent [] [(true, "a".toList), (false, "b".toList)] 0
      (by simp) (by decide)).1 ("a".toList) (by decide),
   (C5_mark_complete_idempotent [] [(true, "a".toList), (false, "b".toList)] 1
      (by simp) (by decide)).2.2.1 false ("b".toList) (by decide)⟩

end WebAgent
